import Mathlib

/-!
Shallow embedding of the alert evaluation pipeline of the ClickUp Budget
Alerts application: the time-entry fetch of `clickupClient.ts`
(`getTimeEntries`, `request`), the pure aggregation functions of
`alertEngine.ts` (`roundHours`, `applyEntryFilters`, `buildSnapshot`,
`buildErrorSnapshot`, `computeTimeRange`), the per-alert orchestrator
`refreshSingleAlert` of `refreshAlerts.ts`, and the batch handler
`alerts:refresh-all` of `main.ts`.

JavaScript dynamic values are modelled by small sum types covering exactly
the shapes the source probes for; numbers are modelled by `Int` (and by
`Rat` for the hours arithmetic), and the result of JS string-to-number
parsing is carried as data (`strNum n` is a string that `Number` parses to
the finite value `n`).
-/

namespace ClickUp

/-- A JS value read from a numeric field of a raw provider payload:
a finite number, a string that parses to a finite number, or anything
else (missing field, `NaN`, `Infinity`, unparsable string, other type). -/
inductive JsNumVal where
  | num (n : Int)
  | strNum (n : Int)
  | bad
deriving DecidableEq, Repr

/-- A JS value read from the `userid` field: string, number, or other. -/
inductive UseridVal where
  | str (s : String)
  | num (n : Int)
  | other
deriving DecidableEq, Repr

/-- `parseDurationMs` of clickupClient.ts: a finite number or a string
parsing to a finite number gives its absolute value, anything else 0. -/
def parseDurationMs : JsNumVal → Int
  | .num n => (n.natAbs : Int)
  | .strNum n => (n.natAbs : Int)
  | .bad => 0

/-- `parseOptionalMs` of clickupClient.ts. -/
def parseOptionalMs : JsNumVal → Option Int
  | .num n => some n
  | .strNum n => some n
  | .bad => none

/-- One raw time-entry object as the source reads it, restricted to the
fields the code probes.  `id` is the `id` field when it is a string;
`task_id` is the `task_id` field when a string; `task_obj_id` is
`task.id` when `task` is an object with a string `id`; `endv` models the
source field named `end`. -/
structure RawEntry where
  id : Option String
  task_id : Option String
  task_obj_id : Option String
  userid : UseridVal
  start : JsNumVal
  endv : JsNumVal
  duration : JsNumVal
deriving DecidableEq, Repr

/-- `extractTaskId` of clickupClient.ts: `task_id` when a string, else
`task.id` when present. -/
def extractTaskId (r : RawEntry) : Option String :=
  match r.task_id with
  | some t => some t
  | none => r.task_obj_id

/-- The user-id string used both in the fallback id and in the entry:
a string `userid` as is, a numeric one via `String(...)`, else none
(the fallback id substitutes `"no-user"`). -/
def useridString : UseridVal → Option String
  | .str s => some s
  | .num n => some (toString n)
  | .other => none

/-- `getStableFallbackEntryId` of clickupClient.ts. -/
def getStableFallbackEntryId (r : RawEntry) : String :=
  let taskId := (extractTaskId r).getD "no-task"
  let start := (parseOptionalMs r.start).getD 0
  let endMs := (parseOptionalMs r.endv).getD 0
  let duration := parseDurationMs r.duration
  let userId := (useridString r.userid).getD "no-user"
  taskId ++ ":" ++ userId ++ ":" ++ toString start ++ ":" ++ toString endMs
    ++ ":" ++ toString duration

/-- The identity under which an entry is deduplicated: the provider id
when it is a string, else the stable fallback key. -/
def entryId (r : RawEntry) : String :=
  match r.id with
  | some s => s
  | none => getStableFallbackEntryId r

/-- `TimeEntry` of shared/types.ts (with the opaque raw payload kept as
the parsed `RawEntry`). -/
structure TimeEntry where
  id : String
  taskId : Option String
  durationMs : Int
  startMs : Option Int
  endMs : Option Int
  userId : Option String
  raw : RawEntry
deriving DecidableEq, Repr

/-- The entry pushed by `getTimeEntries` for a raw item surviving the
`seenIds` check. -/
def mkEntry (id : String) (r : RawEntry) : TimeEntry :=
  { id := id
    taskId := extractTaskId r
    durationMs := parseDurationMs r.duration
    startMs := parseOptionalMs r.start
    endMs := parseOptionalMs r.endv
    userId := useridString r.userid
    raw := r }

/-- Mutable state threaded through the whole `getTimeEntries` call:
the `entries` accumulator, the `seenIds` set (as a list), and — as
instrumentation for the proofs — the list of raw object items examined. -/
structure ScanState where
  entries : List TimeEntry
  seen : List String
  processed : List RawEntry
deriving DecidableEq, Repr

/-- The body of the `for (const item of rawEntries)` loop for one raw
object item: skip it when its identity was already seen, else record the
identity and push the parsed entry. -/
def ingest (st : ScanState) (r : RawEntry) : ScanState :=
  let id := entryId r
  if id ∈ st.seen then { st with processed := st.processed ++ [r] }
  else
    { entries := st.entries ++ [mkEntry id r]
      seen := st.seen ++ [id]
      processed := st.processed ++ [r] }

/-- A raw array item: `none` models a non-object item, which the source
skips with `continue`. -/
def ingestItem (st : ScanState) : Option RawEntry → ScanState
  | none => st
  | some r => ingest st r

/-- One provider response to a time-entries page request: the resolved
entry array (`data` when an array, else `time_entries`, else empty) and
the three pagination signals the source probes (`next_cursor` when a
string, `next_page` when a number, `last_page` when a number). -/
structure PageResponse where
  entries : List (Option RawEntry)
  next_cursor : Option String
  next_page : Option Int
  last_page : Option Int

/-- The continuation decision at the bottom of the pagination loop:
`none` means `break`; `some (page, cursor)` the state for the next
request.  A received cursor is kept for all later requests (the source
never clears `cursor`); a numeric `next_page` is followed only when it
strictly exceeds the current page; else a numeric `last_page` count is
compared against the current page. -/
def nextState (resp : PageResponse) (page : Int) (cursor : Option String) :
    Option (Int × Option String) :=
  match resp.next_cursor with
  | some c => some (page, some c)
  | none =>
    match resp.next_page with
    | some np => if np ≤ page then none else some (np, cursor)
    | none =>
      match resp.last_page with
      | some lp => if page < lp then some (page + 1, cursor) else none
      | none => none

/-- The `while (guard < 200)` pagination loop of one assignee-scoped
scan.  `env n` is the provider's response to the n-th request of this
scan; `fuel` is the number of loop iterations still allowed (200 at
entry), and the returned `Nat` counts the requests issued. -/
def scanAux (env : Nat → PageResponse) :
    Nat → Nat → Int → Option String → ScanState → ScanState × Nat
  | 0, reqs, _, _, st => (st, reqs)
  | fuel + 1, reqs, page, cursor, st =>
    let resp := env reqs
    let st2 := resp.entries.foldl ingestItem st
    match nextState resp page cursor with
    | none => (st2, reqs + 1)
    | some pc => scanAux env fuel (reqs + 1) pc.1 pc.2 st2

/-- One assignee-scoped scan started as the source does: page 0, no
cursor, guard 0 (hence 200 iterations of fuel). -/
def runScan (env : Nat → PageResponse) (st : ScanState) : ScanState × Nat :=
  scanAux env 200 0 0 none st

/-- JS `String.prototype.trim`: strip leading and trailing
whitespace. -/
def jsTrim (s : String) : String :=
  ⟨((s.data.dropWhile Char.isWhitespace).reverse.dropWhile Char.isWhitespace).reverse⟩

/-- `[...new Set(xs)]`: deduplication keeping first occurrences in
order. -/
def uniq (xs : List String) : List String :=
  xs.foldl (fun acc x => if x ∈ acc then acc else acc ++ [x]) []

def ASSIGNEE_QUERY_UNASSIGNED : String := "__UNASSIGNED__"

def ASSIGNEE_QUERY_NONE : String := "__NONE__"

/-- `buildAssigneeQueryValues` of clickupClient.ts. -/
def buildAssigneeQueryValues (assigneeIds : Option (List String)) : List String :=
  let normalized :=
    uniq (((assigneeIds.getD []).map (fun id => jsTrim id)).filter
      (fun id => id.length > 0))
  if normalized.length = 0 then [ASSIGNEE_QUERY_NONE]
  else normalized ++ [ASSIGNEE_QUERY_UNASSIGNED, ASSIGNEE_QUERY_NONE]

/-- The `assignee` query value sent for one query-value sentinel:
`"0"` for the unassigned pass, absent for the unfiltered pass, else the
assignee id itself. -/
def assigneeValue (q : String) : Option String :=
  if q = ASSIGNEE_QUERY_UNASSIGNED then some "0"
  else if q = ASSIGNEE_QUERY_NONE then none
  else some q

/-- `getTimeEntries` of clickupClient.ts, returning the final scan
state.  `env a n` is the provider response to the n-th request of the
pass whose `assignee` query value is `a`. -/
def getTimeEntriesState (env : Option String → Nat → PageResponse)
    (assigneeIds : Option (List String)) : ScanState :=
  (buildAssigneeQueryValues assigneeIds).foldl
    (fun st qv => (runScan (env (assigneeValue qv)) st).1)
    ⟨[], [], []⟩

/-- The entry list `getTimeEntries` returns. -/
def getTimeEntries (env : Option String → Nat → PageResponse)
    (assigneeIds : Option (List String)) : List TimeEntry :=
  (getTimeEntriesState env assigneeIds).entries

/-- The list of `assignee` filter values of the passes `getTimeEntries`
issues, in order. -/
def assigneePasses (assigneeIds : Option (List String)) : List (Option String) :=
  (buildAssigneeQueryValues assigneeIds).map assigneeValue

/-! ## Alert engine (`alertEngine.ts`) -/

inductive AlertStatus where
  | green
  | yellow
  | red
  | inactive
  | error
deriving DecidableEq, Repr

inductive AlertType where
  | folder
  | list
  | custom
deriving DecidableEq, Repr

inductive ScopeType where
  | folder
  | list
deriving DecidableEq, Repr

inductive TimeRangeMode where
  | monthly
  | custom
  | none
deriving DecidableEq, Repr

/-- `AlertSnapshot` of shared/types.ts, hour quantities as rationals. -/
structure AlertSnapshot where
  status : AlertStatus
  hoursUsed : Rat
  budgetHours : Rat
  remainingHours : Rat
  overByHours : Rat
  percentUsed : Rat
  entryCount : Nat
  lastRefreshedAt : String
  scopeSummary : String
  warningMessage : Option String
  errorMessage : Option String
deriving DecidableEq, Repr

/-- `AlertConfig` of shared/types.ts, restricted to the fields the core
pipeline reads or writes. -/
structure AlertConfig where
  id : String
  order : Int
  name : String
  type : AlertType
  teamId : String
  folderId : Option String
  folderName : Option String
  listId : Option String
  listName : Option String
  customScopeType : Option ScopeType
  timeRangeMode : TimeRangeMode
  startDate : Option String
  endDate : Option String
  budgetHours : Rat
  warningThresholdPct : Rat
  criticalThresholdPct : Rat
  excludedTaskIds : List String
  includeOnlyTaskIds : Option (List String)
  active : Bool
  createdAt : String
  updatedAt : String
  lastRefreshedAt : Option String
  lastSnapshot : Option AlertSnapshot
deriving DecidableEq, Repr

/-- `roundHours` of alertEngine.ts: `Math.round(value * 100) / 100`,
with `Math.round x = ⌊x + 1/2⌋`. -/
def roundHours (value : Rat) : Rat :=
  ((⌊value * 100 + 1 / 2⌋ : Int) : Rat) / 100

/-- `uniqIds` of alertEngine.ts: trim, drop empties, deduplicate. -/
def uniqIds (ids : Option (List String)) : List String :=
  uniq (((ids.getD []).map (fun id => jsTrim id)).filter (fun id => id.length > 0))

/-- `resolveStatus` of alertEngine.ts. -/
def resolveStatus (alert : AlertConfig) (percentUsed : Rat) : AlertStatus :=
  if alert.active = false then .inactive
  else if alert.criticalThresholdPct ≤ percentUsed then .red
  else if alert.warningThresholdPct ≤ percentUsed then .yellow
  else .green

/-- `resolveScopeSummary` of alertEngine.ts. -/
def resolveScopeSummary (alert : AlertConfig) : String :=
  let modeLabel :=
    match alert.timeRangeMode with
    | .monthly => "Current month"
    | .custom =>
      "Custom (" ++ (alert.startDate.getD "n/a") ++ " to "
        ++ (alert.endDate.getD "n/a") ++ ")"
    | .none => "Cumulative"
  match alert.type with
  | .folder =>
    "Folder: " ++ (alert.folderName.getD (alert.folderId.getD "Unknown"))
      ++ " | " ++ modeLabel
  | .list =>
    "List: " ++ (alert.listName.getD (alert.listId.getD "Unknown"))
      ++ " | " ++ modeLabel
  | .custom =>
    let scopeName :=
      match alert.customScopeType with
      | some .folder => alert.folderName.getD (alert.folderId.getD "Unknown folder")
      | _ => alert.listName.getD (alert.listId.getD "Unknown list")
    let scopeLabel :=
      match alert.customScopeType with
      | some .folder => "folder"
      | some .list => "list"
      | none => "scope"
    "Custom " ++ scopeLabel ++ ": " ++ scopeName ++ " | " ++ modeLabel

/-- `applyEntryFilters` of alertEngine.ts. -/
def applyEntryFilters (alert : AlertConfig) (entries : List TimeEntry) :
    List TimeEntry :=
  let excluded := uniqIds (some alert.excludedTaskIds)
  let includeOnly := uniqIds alert.includeOnlyTaskIds
  entries.filter (fun entry =>
    match entry.taskId with
    | none => includeOnly.length = 0
    | some taskId =>
      if taskId ∈ excluded then false
      else if includeOnly.length > 0 ∧ taskId ∉ includeOnly then false
      else true)

/-- The `entries.reduce((sum, e) => sum + e.durationMs / 3_600_000, 0)`
total of `buildSnapshot`. -/
def sumHours (entries : List TimeEntry) : Rat :=
  entries.foldl (fun sum entry => sum + (entry.durationMs : Rat) / 3600000) 0

/-- `buildSnapshot` of alertEngine.ts; `now` stands for
`new Date().toISOString()`. -/
def buildSnapshot (alert : AlertConfig) (entries : List TimeEntry)
    (now : String) (warningMessage : Option String) : AlertSnapshot :=
  let totalHours := roundHours (sumHours entries)
  let budget := alert.budgetHours
  let rawPercent := if budget > 0 then totalHours / budget * 100 else 0
  let percentUsed := roundHours rawPercent
  let remainingHours := roundHours (max 0 (budget - totalHours))
  let overByHours := roundHours (max 0 (totalHours - budget))
  { status := resolveStatus alert percentUsed
    hoursUsed := totalHours
    budgetHours := budget
    remainingHours := remainingHours
    overByHours := overByHours
    percentUsed := percentUsed
    entryCount := entries.length
    lastRefreshedAt := now
    scopeSummary := resolveScopeSummary alert
    warningMessage := warningMessage
    errorMessage := none }

/-- `buildErrorSnapshot` of alertEngine.ts. -/
def buildErrorSnapshot (alert : AlertConfig) (errorMessage : String)
    (now : String) : AlertSnapshot :=
  { status := .error
    hoursUsed := (alert.lastSnapshot.map (fun s => s.hoursUsed)).getD 0
    budgetHours := alert.budgetHours
    remainingHours :=
      (alert.lastSnapshot.map (fun s => s.remainingHours)).getD alert.budgetHours
    overByHours := (alert.lastSnapshot.map (fun s => s.overByHours)).getD 0
    percentUsed := (alert.lastSnapshot.map (fun s => s.percentUsed)).getD 0
    entryCount := (alert.lastSnapshot.map (fun s => s.entryCount)).getD 0
    lastRefreshedAt := now
    scopeSummary :=
      (alert.lastSnapshot.map (fun s => s.scopeSummary)).getD
        (resolveScopeSummary alert)
    warningMessage := none
    errorMessage := some errorMessage }

/-! ## HTTP request retry loop (`clickupClient.ts`, `request`) -/

/-- `ClickUpApiError` of clickupClient.ts. -/
structure ApiError where
  message : String
  status : Option Nat
  code : Option String
deriving DecidableEq, Repr

/-- What one fetch attempt observes: a 2xx response with a payload
(abstracted to a number), a non-2xx HTTP response with its status and
the message string extracted from its body (`err` or `message` field,
when a string), or a non-HTTP network failure (including timeout). -/
inductive AttemptOutcome where
  | ok (payload : Nat)
  | httpErr (status : Nat) (bodyMsg : Option String)
  | netErr
deriving DecidableEq, Repr

/-- `normalizeErrorMessage` applied to a non-2xx response body, with the
interpolated fallback of the call site. -/
def normalizeErrorMessage (bodyMsg : Option String) (status : Nat) : String :=
  bodyMsg.getD ("ClickUp API request failed (" ++ toString status ++ ")")

def MAX_ATTEMPTS : Nat := 4

/-- The backoff slept before retrying after the given attempt:
`250 * 2 ^ (attempt - 1)` milliseconds. -/
def backoffMs (attempt : Nat) : Nat := 250 * 2 ^ (attempt - 1)

def unauthorizedError : ApiError :=
  ⟨"Invalid or revoked ClickUp token.", some 401, some "UNAUTHORIZED"⟩

def forbiddenError : ApiError :=
  ⟨"Token is valid but lacks required permissions for this scope.", some 403,
    some "FORBIDDEN"⟩

def networkError : ApiError :=
  ⟨"Network error while contacting ClickUp API.", none, none⟩

def unexpectedError : ApiError := ⟨"Unexpected API error.", none, none⟩

inductive ReqResult where
  | success (payload : Nat)
  | failure (e : ApiError)
deriving DecidableEq, Repr

/-- The observable outcome of one `request` call: its result, the list
of backoff waits it performed (in order), and the number of fetch
attempts it made. -/
structure RunOutcome where
  result : ReqResult
  waits : List Nat
  attemptsMade : Nat
deriving DecidableEq, Repr

/-- The `for (let attempt = 1; attempt <= MAX_ATTEMPTS; ...)` loop of
`request`, with the try/catch classification flattened: a 2xx returns;
401/403 raise immediately (the catch re-raises them unchanged); 429/5xx
and network errors back off and retry while attempts remain, else raise
their classified error.  `env a` is what attempt `a` observes; `fuel`
is the number of loop iterations remaining, and exhausting the loop
yields the post-loop `Unexpected API error.` -/
def requestAux (env : Nat → AttemptOutcome) :
    Nat → Nat → List Nat → RunOutcome
  | 0, attempt, waits => ⟨.failure unexpectedError, waits, attempt - 1⟩
  | fuel + 1, attempt, waits =>
    match env attempt with
    | .ok p => ⟨.success p, waits, attempt⟩
    | .netErr =>
      if attempt < MAX_ATTEMPTS then
        requestAux env fuel (attempt + 1) (waits ++ [backoffMs attempt])
      else ⟨.failure networkError, waits, attempt⟩
    | .httpErr status bodyMsg =>
      if status = 401 then ⟨.failure unauthorizedError, waits, attempt⟩
      else if status = 403 then ⟨.failure forbiddenError, waits, attempt⟩
      else if (status = 429 ∨ 500 ≤ status) ∧ attempt < MAX_ATTEMPTS then
        requestAux env fuel (attempt + 1) (waits ++ [backoffMs attempt])
      else
        ⟨.failure ⟨normalizeErrorMessage bodyMsg status, some status, none⟩,
          waits, attempt⟩

/-- One `request` call. -/
def request (env : Nat → AttemptOutcome) : RunOutcome :=
  requestAux env MAX_ATTEMPTS 1 []

/-- An attempt outcome the retry policy considers retriable: HTTP 429,
HTTP 5xx, or a non-HTTP network error. -/
def retriableOutcome : AttemptOutcome → Bool
  | .ok _ => false
  | .netErr => true
  | .httpErr status _ => status = 429 ∨ 500 ≤ status

/-! ## Scope tree and per-alert refresh (`refreshAlerts.ts`) -/

structure ScopeList where
  id : String
  name : String
deriving DecidableEq, Repr

structure ScopeFolder where
  id : String
  name : String
  lists : List ScopeList
deriving DecidableEq, Repr

structure ScopeTreeTeam where
  id : String
  name : String
  folders : List ScopeFolder
deriving DecidableEq, Repr

/-- `getScopeWarning` of refreshAlerts.ts. -/
def getScopeWarning (alert : AlertConfig) (tree : List ScopeTreeTeam) :
    Option String :=
  match tree.find? (fun item => item.id = alert.teamId) with
  | none => some "Selected workspace is no longer accessible."
  | some team =>
    let needsFolder :=
      alert.type = .folder ∨ (alert.type = .custom ∧ alert.customScopeType = some .folder)
    let folderExists := team.folders.any (fun folder => alert.folderId = some folder.id)
    let needsList :=
      alert.type = .list ∨ (alert.type = .custom ∧ alert.customScopeType = some .list)
    let listExists :=
      team.folders.any (fun folder => folder.lists.any (fun l => alert.listId = some l.id))
    if needsFolder ∧ folderExists = false then
      some "Selected folder is missing or inaccessible."
    else if needsList ∧ listExists = false then
      some "Selected list is missing or inaccessible."
    else none

structure TimeRange where
  startMs : Option Int
  endMs : Option Int
deriving DecidableEq, Repr

/-- Wall-clock and calendar inputs of `computeTimeRange` (date-fns and
`new Date()` being outside the embedding): the bounds of the month
containing `now`, and the start/end-of-day timestamps of a parsed date
string. -/
structure DateEnv where
  startOfMonthMs : Int
  endOfMonthMs : Int
  startOfDayMs : String → Int
  endOfDayMs : String → Int

/-- `computeTimeRange` of alertEngine.ts.  A missing custom bound is
either an absent field or an empty string (both falsy in the source). -/
def computeTimeRange (dates : DateEnv) (alert : AlertConfig) : TimeRange :=
  match alert.timeRangeMode with
  | .none => ⟨none, none⟩
  | .monthly => ⟨some dates.startOfMonthMs, some dates.endOfMonthMs⟩
  | .custom =>
    if alert.startDate.getD "" = "" ∨ alert.endDate.getD "" = "" then ⟨none, none⟩
    else
      ⟨some (dates.startOfDayMs (alert.startDate.getD "")),
        some (dates.endOfDayMs (alert.endDate.getD ""))⟩

/-- `RefreshAlertResult` of shared/types.ts. -/
structure RefreshAlertResult where
  alert : AlertConfig
  success : Bool
  errorMessage : Option String
deriving DecidableEq, Repr

/-- The result of one client call that may throw: `thrown (some e)` is a
raised `ClickUpApiError e`, `thrown none` any other raised error. -/
inductive FetchRes (α : Type) where
  | ok (a : α)
  | thrown (e : Option ApiError)
deriving DecidableEq, Repr

/-- The catch clause of `refreshSingleAlert`: a `ClickUpApiError`'s own
message, else the generic fallback. -/
def refreshErrorMessage : Option ApiError → String
  | some e => e.message
  | none => "Failed to refresh alert due to an unexpected error."

/-- The parameter record `getTimeEntries` is called with. -/
structure TimeEntryParams where
  teamId : String
  startMs : Option Int
  endMs : Option Int
  folderId : Option String
  listId : Option String
  assigneeIds : Option (List String)
deriving DecidableEq, Repr

/-- The collaborators `refreshSingleAlert` touches: the clock, the
calendar, and the two client calls it awaits. -/
structure RefreshEnv where
  now : String
  dates : DateEnv
  scopeTree : FetchRes (List ScopeTreeTeam)
  timeEntries : TimeEntryParams → FetchRes (List TimeEntry)

/-- The failed result built both for a scope warning and in the catch
clause of `refreshSingleAlert`. -/
def failedRefreshResult (env : RefreshEnv) (alert : AlertConfig)
    (message : String) : RefreshAlertResult :=
  let snapshot := buildErrorSnapshot alert message env.now
  { alert :=
      { alert with
        lastRefreshedAt := some snapshot.lastRefreshedAt
        lastSnapshot := some snapshot
        updatedAt := env.now }
    success := false
    errorMessage := some message }

/-- `refreshSingleAlert` of refreshAlerts.ts.  The source declares
exactly three parameters, `(client, alert, scopeTreeOverride?)`; it has
no `teamMemberIds` parameter and builds the `getTimeEntries` argument
object without an `assigneeIds` field.  The second component records
the parameters `getTimeEntries` was called with (`none` when it was not
called). -/
def refreshSingleAlert (env : RefreshEnv) (alert : AlertConfig)
    (scopeTreeOverride : Option (List ScopeTreeTeam)) :
    RefreshAlertResult × Option TimeEntryParams :=
  if alert.active = false then
    let snapshot := buildSnapshot alert [] env.now none
    let inactiveSnapshot := { snapshot with status := AlertStatus.inactive }
    (⟨{ alert with
          lastRefreshedAt := some inactiveSnapshot.lastRefreshedAt
          lastSnapshot := some inactiveSnapshot
          updatedAt := env.now },
        true, none⟩, none)
  else
    let treeRes :=
      match scopeTreeOverride with
      | some t => FetchRes.ok t
      | none => env.scopeTree
    match treeRes with
    | .thrown e => (failedRefreshResult env alert (refreshErrorMessage e), none)
    | .ok scopeTree =>
      match getScopeWarning alert scopeTree with
      | some warning => (failedRefreshResult env alert warning, none)
      | none =>
        let timeRange := computeTimeRange env.dates alert
        let params : TimeEntryParams :=
          { teamId := alert.teamId
            startMs := timeRange.startMs
            endMs := timeRange.endMs
            folderId :=
              if alert.type = .folder ∨
                  (alert.type = .custom ∧ alert.customScopeType = some .folder) then
                alert.folderId
              else none
            listId :=
              if alert.type = .list ∨
                  (alert.type = .custom ∧ alert.customScopeType = some .list) then
                alert.listId
              else none
            assigneeIds := none }
        match env.timeEntries params with
        | .thrown e =>
          (failedRefreshResult env alert (refreshErrorMessage e), some params)
        | .ok entries =>
          let filteredEntries := applyEntryFilters alert entries
          let snapshot := buildSnapshot alert filteredEntries env.now none
          (⟨{ alert with
                excludedTaskIds := uniq alert.excludedTaskIds
                includeOnlyTaskIds :=
                  some (match alert.includeOnlyTaskIds with
                    | some l => uniq l
                    | none => [])
                lastRefreshedAt := some snapshot.lastRefreshedAt
                lastSnapshot := some snapshot
                updatedAt := env.now },
              true, none⟩, some params)

/-! ## Batch refresh (`main.ts`, `refreshAllInternal` and the
`alerts:refresh-all` handler) -/

/-- `sortAlerts` of main.ts: stable sort by `order`, ties broken by
`createdAt` (string comparison standing in for `localeCompare`). -/
def sortAlerts (alerts : List AlertConfig) : List AlertConfig :=
  alerts.mergeSort (fun a b =>
    a.order < b.order ∨ (a.order = b.order ∧ a.createdAt ≤ b.createdAt))

/-- The message of the error `withClient` raises when no token is
configured. -/
def noTokenMessage : String :=
  "No ClickUp token configured. Add a token in settings first."

/-- The `replacement ?? alert` lookup of `refreshAllInternal`: the JS
`Map` keeps the last insertion per key, so the last matching refreshed
alert wins. -/
def replaceById (results : List RefreshAlertResult) (alert : AlertConfig) :
    AlertConfig :=
  (((results.map (fun r => r.alert)).reverse).find? (fun b => b.id = alert.id)).getD
    alert

/-- Outcome of one `alerts:refresh-all` invocation: the returned result
list and the alert list handed to `store.setAlerts` (`none` when the
store was not written). -/
structure BatchOutcome where
  results : List RefreshAlertResult
  persisted : Option (List AlertConfig)
deriving Repr

/-- The `alerts:refresh-all` handler of main.ts around
`refreshAllInternal`.  `token` is what `store.getToken()` yields inside
`withClient`; `envFor` gives each alert's refresh environment (the
per-team member-id lookup of `refreshAllInternal` is modelled only by
its absence of observable effect: `refreshSingleAlert` has no parameter
to receive the ids, so the cache influences nothing downstream).  When
`withClient` throws for a missing token, the catch of the handler maps
every input alert to a synthetic failed result, persists exactly those
alerts, and returns the failed results. -/
def refreshAllHandler (token : Option String)
    (envFor : AlertConfig → RefreshEnv) (now : String)
    (alerts : List AlertConfig) : BatchOutcome :=
  if alerts.length = 0 then ⟨[], none⟩
  else
    match token with
    | some _ =>
      let results :=
        (sortAlerts alerts).map (fun alert =>
          (refreshSingleAlert (envFor alert) alert none).1)
      let nextAlerts := sortAlerts (alerts.map (replaceById results))
      ⟨results, some nextAlerts⟩
    | none =>
      let message := noTokenMessage
      let failedResults :=
        alerts.map (fun alert =>
          { alert :=
              { alert with
                lastRefreshedAt := some now
                updatedAt := now
                lastSnapshot := some (buildErrorSnapshot alert message now) }
            success := false
            errorMessage := some message })
      ⟨failedResults, some (failedResults.map (fun r => r.alert))⟩

/-! ## Concrete instances used by witnesses and counterexamples -/

/-- A snapshot with distinctive values, used as a previous snapshot in
concrete instances. -/
def prevSnapTen : AlertSnapshot :=
  { status := .green
    hoursUsed := 7
    budgetHours := 10
    remainingHours := 3
    overByHours := 0
    percentUsed := 70
    entryCount := 4
    lastRefreshedAt := "2026-01-01T00:00:00.000Z"
    scopeSummary := "Folder: F | Cumulative"
    warningMessage := none
    errorMessage := none }

/-- A concrete alert whose current budget (20) differs from the budget
recorded in its previous snapshot (10). -/
def alertTwenty : AlertConfig :=
  { id := "a1"
    order := 0
    name := "Alert"
    type := .folder
    teamId := "team1"
    folderId := some "f1"
    folderName := some "F"
    listId := none
    listName := none
    customScopeType := none
    timeRangeMode := .none
    startDate := none
    endDate := none
    budgetHours := 20
    warningThresholdPct := 80
    criticalThresholdPct := 90
    excludedTaskIds := []
    includeOnlyTaskIds := none
    active := true
    createdAt := "2026-01-01T00:00:00.000Z"
    updatedAt := "2026-01-01T00:00:00.000Z"
    lastRefreshedAt := none
    lastSnapshot := some prevSnapTen }

/-- A concrete alert for the snapshot scenario: budget 50, thresholds
80/90, active, no previous snapshot, no task-id filters. -/
def alertFifty : AlertConfig :=
  { alertTwenty with
    id := "a2"
    budgetHours := 50
    lastSnapshot := none }

/-- One concrete entry carrying 150,000,000 ms. -/
def rawBig : RawEntry :=
  { id := some "e1"
    task_id := some "t1"
    task_obj_id := none
    userid := .num 5
    start := .num 0
    endv := .num 150000000
    duration := .num 150000000 }

def entryBig : TimeEntry := mkEntry "e1" rawBig

/-- An entry with no task id, for the filter witness. -/
def entryNoTask : TimeEntry :=
  mkEntry "e2"
    { id := some "e2"
      task_id := none
      task_obj_id := none
      userid := .other
      start := .bad
      endv := .bad
      duration := .num 3600000 }

/-- An environment whose every attempt observes HTTP 429 until attempt
4 answers 200 with payload 7. -/
def env429 : Nat → AttemptOutcome :=
  fun a => if a ≤ 3 then .httpErr 429 none else .ok 7

/-- An environment whose every attempt fails with a network error. -/
def envAllNet : Nat → AttemptOutcome := fun _ => .netErr

/-- The error a failing final attempt is classified into: the generic
network error for a transport failure, the 401/403 classifications, and
the provider-derived message and status otherwise.  (On a success this
classification is never consulted.) -/
def finalError : AttemptOutcome → ApiError
  | .ok _ => unexpectedError
  | .netErr => networkError
  | .httpErr status bodyMsg =>
    if status = 401 then unauthorizedError
    else if status = 403 then forbiddenError
    else ⟨normalizeErrorMessage bodyMsg status, some status, none⟩

/-- A raw entry with no provider id and a negative duration. -/
def rawNeg : RawEntry :=
  { id := none
    task_id := some "t1"
    task_obj_id := none
    userid := .num 5
    start := .num 10
    endv := .num 20
    duration := .num (-1000) }

/-- A provider page carrying `rawNeg` and no pagination signal. -/
def pageNeg : PageResponse := ⟨[some rawNeg], none, none, none⟩

/-- A time-entries environment answering every request of every pass
with `pageNeg`. -/
def envPages : Option String → Nat → PageResponse := fun _ _ => pageNeg

/-- A page that reports a non-advancing numeric `next_page`. -/
def pageStuck : PageResponse := ⟨[], none, some 0, none⟩

/-- A trivial refresh environment for batch witnesses. -/
def envTrivial : RefreshEnv :=
  { now := "2026-02-01T00:00:00.000Z"
    dates := ⟨0, 0, fun _ => 0, fun _ => 0⟩
    scopeTree := .ok []
    timeEntries := fun _ => .ok [] }

/-- A scope tree containing exactly the team and folder of
`alertTwenty`. -/
def treeTwenty : List ScopeTreeTeam :=
  [{ id := "team1", name := "Team", folders := [{ id := "f1", name := "F", lists := [] }] }]

/-- A refresh environment that yields `treeTwenty` and one entry. -/
def envRefresh : RefreshEnv :=
  { now := "2026-02-01T00:00:00.000Z"
    dates := ⟨0, 0, fun _ => 0, fun _ => 0⟩
    scopeTree := .ok treeTwenty
    timeEntries := fun _ => .ok [entryBig] }

/-- The invariant the `getTimeEntries` scan state maintains: entry
identities are pairwise distinct, `seen` holds exactly the identities of
the accumulated entries, every processed raw item's identity has been
seen, and every accumulated entry is the parse of its own raw payload
under its identity. -/
def GoodState (st : ScanState) : Prop :=
  (st.entries.map (fun e => e.id)).Nodup
    ∧ (∀ s, s ∈ st.seen ↔ ∃ e ∈ st.entries, e.id = s)
    ∧ (∀ r ∈ st.processed, entryId r ∈ st.seen)
    ∧ (∀ e ∈ st.entries, e = mkEntry (entryId e.raw) e.raw)

/-! ## Helper lemmas -/

theorem sumHours_foldl (l : List TimeEntry) :
    ∀ acc : Rat,
      l.foldl (fun sum entry => sum + (entry.durationMs : Rat) / 3600000) acc
        = acc + (l.map (fun e => (e.durationMs : Rat))).sum / 3600000 := by
  induction l with
  | nil => intro acc; simp
  | cons x xs ih =>
    intro acc
    simp only [List.foldl_cons, List.map_cons, List.sum_cons, ih]
    ring

theorem sumHours_eq (entries : List TimeEntry) :
    sumHours entries
      = (entries.map (fun e => (e.durationMs : Rat))).sum / 3600000 := by
  simpa [sumHours] using sumHours_foldl entries 0

theorem roundHours_zero : roundHours 0 = 0 := by
  norm_num [roundHours]

theorem uniq_foldl_len (l : List String) :
    ∀ acc : List String,
      acc.length ≤
        (l.foldl (fun acc x => if x ∈ acc then acc else acc ++ [x]) acc).length := by
  induction l with
  | nil => intro acc; simp
  | cons x xs ih =>
    intro acc
    simp only [List.foldl_cons]
    by_cases hx : x ∈ acc
    · simpa [hx] using ih acc
    · calc acc.length ≤ (acc ++ [x]).length := by simp
        _ ≤ _ := by simpa [hx] using ih (acc ++ [x])

theorem uniq_eq_nil_iff (l : List String) : uniq l = [] ↔ l = [] := by
  constructor
  · intro h
    cases l with
    | nil => rfl
    | cons x xs =>
      exfalso
      have hlen := uniq_foldl_len xs [x]
      have : uniq (x :: xs) = xs.foldl (fun acc x => if x ∈ acc then acc else acc ++ [x]) [x] := by
        simp [uniq]
      rw [this] at h
      rw [h] at hlen
      simp at hlen
  · intro h; subst h; rfl

theorem uniq_foldl_append (l : List String) :
    ∀ acc : List String, (acc ++ l).Nodup →
      l.foldl (fun acc x => if x ∈ acc then acc else acc ++ [x]) acc = acc ++ l := by
  induction l with
  | nil => intro acc _; simp
  | cons x xs ih =>
    intro acc hnd
    have hx : x ∉ acc := by
      intro hmem
      have := List.disjoint_of_nodup_append hnd
      exact this hmem (by simp)
    have hnd2 : ((acc ++ [x]) ++ xs).Nodup := by
      simpa [List.append_assoc] using hnd
    simp only [List.foldl_cons, if_neg hx]
    rw [ih (acc ++ [x]) hnd2]
    simp

theorem uniq_eq_self (l : List String) (h : l.Nodup) : uniq l = l := by
  simpa [uniq] using uniq_foldl_append l [] (by simpa using h)

/-! ## Claim theorems -/

/-- C2: `buildSnapshot` computes `hoursUsed` as the 2-decimal rounding
of the summed durations over 3,600,000; `percentUsed` as the 2-decimal
rounding of `hoursUsed / budgetHours * 100` (0 when the budget is not
positive); `remainingHours` and `overByHours` as the 2-decimal roundings
of the clamped differences; and on the concrete scenario — budget 50,
entries totalling 150,000,000 ms, active alert with
`warningThresholdPct ≤ 83.34 < criticalThresholdPct` — it yields
`hoursUsed = 41.67`, `percentUsed = 83.34`, `remainingHours = 8.33`,
`overByHours = 0` and status `yellow`. -/
theorem C2_buildSnapshot_formulas (alert : AlertConfig)
    (entries : List TimeEntry) (now : String)
    (hbudget : alert.budgetHours = 50) (hactive : alert.active = true)
    (hwarn : alert.warningThresholdPct ≤ 8334 / 100)
    (hcrit : 8334 / 100 < alert.criticalThresholdPct)
    (hsum : (entries.map (fun e => (e.durationMs : Rat))).sum = 150000000) :
    (∀ (a : AlertConfig) (es : List TimeEntry) (n : String) (w : Option String),
      (buildSnapshot a es n w).hoursUsed
          = roundHours ((es.map (fun e => (e.durationMs : Rat))).sum / 3600000)
        ∧ (buildSnapshot a es n w).percentUsed
          = (if 0 < a.budgetHours then
              roundHours ((buildSnapshot a es n w).hoursUsed / a.budgetHours * 100)
            else 0)
        ∧ (buildSnapshot a es n w).remainingHours
          = roundHours (max 0 (a.budgetHours - (buildSnapshot a es n w).hoursUsed))
        ∧ (buildSnapshot a es n w).overByHours
          = roundHours (max 0 ((buildSnapshot a es n w).hoursUsed - a.budgetHours)))
    ∧ (buildSnapshot alert entries now none).hoursUsed = 4167 / 100
    ∧ (buildSnapshot alert entries now none).percentUsed = 8334 / 100
    ∧ (buildSnapshot alert entries now none).remainingHours = 833 / 100
    ∧ (buildSnapshot alert entries now none).overByHours = 0
    ∧ (buildSnapshot alert entries now none).status = AlertStatus.yellow := by
  have hgen : ∀ (a : AlertConfig) (es : List TimeEntry) (n : String) (w : Option String),
      (buildSnapshot a es n w).hoursUsed
          = roundHours ((es.map (fun e => (e.durationMs : Rat))).sum / 3600000)
        ∧ (buildSnapshot a es n w).percentUsed
          = (if 0 < a.budgetHours then
              roundHours ((buildSnapshot a es n w).hoursUsed / a.budgetHours * 100)
            else 0)
        ∧ (buildSnapshot a es n w).remainingHours
          = roundHours (max 0 (a.budgetHours - (buildSnapshot a es n w).hoursUsed))
        ∧ (buildSnapshot a es n w).overByHours
          = roundHours (max 0 ((buildSnapshot a es n w).hoursUsed - a.budgetHours)) := by
    intro a es n w
    refine ⟨?_, ?_, ?_, ?_⟩
    · simp [buildSnapshot, sumHours_eq]
    · by_cases hb : a.budgetHours > 0
      · simp [buildSnapshot, hb]
      · simp [buildSnapshot, hb, roundHours_zero]
    · simp [buildSnapshot]
    · simp [buildSnapshot]
  have htot : roundHours (sumHours entries) = 4167 / 100 := by
    rw [sumHours_eq, hsum]
    norm_num [roundHours]
  have hused : (buildSnapshot alert entries now none).hoursUsed = 4167 / 100 := by
    simpa [buildSnapshot] using htot
  have hperc : (buildSnapshot alert entries now none).percentUsed = 8334 / 100 := by
    simp only [buildSnapshot, hbudget]
    rw [if_pos (by norm_num)]
    rw [htot]
    norm_num [roundHours]
  refine ⟨hgen, hused, hperc, ?_, ?_, ?_⟩
  · simp only [buildSnapshot, hbudget]
    rw [htot]
    norm_num [roundHours]
  · simp only [buildSnapshot, hbudget]
    rw [htot]
    norm_num [roundHours]
  · have hst : (buildSnapshot alert entries now none).status
        = resolveStatus alert ((buildSnapshot alert entries now none).percentUsed) := by
      simp [buildSnapshot]
    rw [hst, hperc, resolveStatus, if_neg (by simp [hactive]), if_neg (not_le.mpr hcrit),
      if_pos hwarn]

/-- C2 witness: the scenario instantiated with `alertFifty` and one
entry of 150,000,000 ms. -/
theorem C2_buildSnapshot_formulas_witness :
    alertFifty.budgetHours = 50 ∧ alertFifty.active = true
      ∧ alertFifty.warningThresholdPct ≤ 8334 / 100
      ∧ 8334 / 100 < alertFifty.criticalThresholdPct
      ∧ (([entryBig].map (fun e => (e.durationMs : Rat))).sum = 150000000)
      ∧ (buildSnapshot alertFifty [entryBig] "t" none).hoursUsed = 4167 / 100
      ∧ (buildSnapshot alertFifty [entryBig] "t" none).status = AlertStatus.yellow := by
  have hsum : (([entryBig].map (fun e => (e.durationMs : Rat))).sum = 150000000) := by
    norm_num [entryBig, mkEntry, rawBig, parseDurationMs]
  have h := C2_buildSnapshot_formulas alertFifty [entryBig] "t"
    (by decide) (by decide) (by norm_num [alertFifty, alertTwenty])
    (by norm_num [alertFifty, alertTwenty]) hsum
  exact ⟨by decide, by decide, by norm_num [alertFifty, alertTwenty],
    by norm_num [alertFifty, alertTwenty], hsum, h.2.1, h.2.2.2.2.2⟩

/-- C6 counterexample: on an alert whose current `budgetHours` (20)
differs from the one recorded in its previous snapshot (10), the error
snapshot's `budgetHours` is the alert's current 20, not the previous
snapshot's 10 — so `budgetHours` is not carried forward from the
previous snapshot. -/
theorem C6_budgetHours_not_carried :
    alertTwenty.lastSnapshot = some prevSnapTen
      ∧ prevSnapTen.budgetHours = 10
      ∧ (buildErrorSnapshot alertTwenty "boom" "t").budgetHours = 20
      ∧ (buildErrorSnapshot alertTwenty "boom" "t").budgetHours
          ≠ prevSnapTen.budgetHours := by
  refine ⟨rfl, rfl, rfl, ?_⟩
  norm_num [buildErrorSnapshot, alertTwenty, prevSnapTen]

/-- C6 (amended): `buildErrorSnapshot` returns a snapshot with status
`error` carrying the message; `hoursUsed`, `remainingHours`,
`overByHours`, `percentUsed`, `entryCount` and `scopeSummary` are
carried forward from the alert's previous snapshot when one exists;
`budgetHours` is always the alert's current `budgetHours`; with no
previous snapshot, `remainingHours` defaults to the alert's
`budgetHours`, the other numeric fields to 0, and `scopeSummary` is
recomputed. -/
theorem C6_buildErrorSnapshot_carry (alert : AlertConfig) (msg now : String) :
    (buildErrorSnapshot alert msg now).status = AlertStatus.error
      ∧ (buildErrorSnapshot alert msg now).errorMessage = some msg
      ∧ (buildErrorSnapshot alert msg now).budgetHours = alert.budgetHours
      ∧ (∀ prev, alert.lastSnapshot = some prev →
          (buildErrorSnapshot alert msg now).hoursUsed = prev.hoursUsed
            ∧ (buildErrorSnapshot alert msg now).remainingHours = prev.remainingHours
            ∧ (buildErrorSnapshot alert msg now).overByHours = prev.overByHours
            ∧ (buildErrorSnapshot alert msg now).percentUsed = prev.percentUsed
            ∧ (buildErrorSnapshot alert msg now).entryCount = prev.entryCount
            ∧ (buildErrorSnapshot alert msg now).scopeSummary = prev.scopeSummary)
      ∧ (alert.lastSnapshot = none →
          (buildErrorSnapshot alert msg now).hoursUsed = 0
            ∧ (buildErrorSnapshot alert msg now).remainingHours = alert.budgetHours
            ∧ (buildErrorSnapshot alert msg now).overByHours = 0
            ∧ (buildErrorSnapshot alert msg now).percentUsed = 0
            ∧ (buildErrorSnapshot alert msg now).entryCount = 0
            ∧ (buildErrorSnapshot alert msg now).scopeSummary
                = resolveScopeSummary alert) := by
  refine ⟨rfl, rfl, rfl, ?_, ?_⟩
  · intro prev hprev
    simp [buildErrorSnapshot, hprev]
  · intro hnone
    simp [buildErrorSnapshot, hnone]

/-- C6 witness: the amended carry-forward behaviour at `alertTwenty`,
whose previous snapshot exists. -/
theorem C6_buildErrorSnapshot_carry_witness :
    alertTwenty.lastSnapshot = some prevSnapTen
      ∧ (buildErrorSnapshot alertTwenty "boom" "t").hoursUsed = prevSnapTen.hoursUsed
      ∧ (buildErrorSnapshot alertTwenty "boom" "t").scopeSummary
          = prevSnapTen.scopeSummary := by
  have h := (C6_buildErrorSnapshot_carry alertTwenty "boom" "t").2.2.2.1 prevSnapTen rfl
  exact ⟨rfl, h.1, h.2.2.2.2.2⟩

/-- C9: an entry whose `taskId` is absent survives `applyEntryFilters`
exactly when the alert configures no include-only set (for ids in the
normalized form the data model maintains: trimmed and non-empty),
regardless of `excludedTaskIds`. -/
theorem C9_no_taskId_filter (alert : AlertConfig) (entries : List TimeEntry)
    (entry : TimeEntry) (hmem : entry ∈ entries) (htask : entry.taskId = none)
    (hnorm : ∀ s ∈ alert.includeOnlyTaskIds.getD [], jsTrim s = s ∧ 0 < s.length) :
    entry ∈ applyEntryFilters alert entries
      ↔ alert.includeOnlyTaskIds.getD [] = [] := by
  have hids : ((alert.includeOnlyTaskIds.getD []).map (fun id => jsTrim id)).filter
      (fun id => id.length > 0) = alert.includeOnlyTaskIds.getD [] := by
    have hmap : (alert.includeOnlyTaskIds.getD []).map (fun id => jsTrim id)
        = alert.includeOnlyTaskIds.getD [] := by
      have := List.map_congr_left (f := fun id : String => jsTrim id) (g := id)
        (fun s hs => (hnorm s hs).1)
      simpa using this
    rw [hmap]
    exact List.filter_eq_self.mpr (fun s hs => by
      simpa using (hnorm s hs).2)
  have hun : uniqIds alert.includeOnlyTaskIds = []
      ↔ alert.includeOnlyTaskIds.getD [] = [] := by
    rw [uniqIds, hids, uniq_eq_nil_iff]
  constructor
  · intro hin
    have := (List.mem_filter.mp hin).2
    rw [← hun]
    have hpred : (match entry.taskId with
        | none => decide ((uniqIds alert.includeOnlyTaskIds).length = 0)
        | some taskId => _) = true := this
    rw [htask] at hpred
    have : (uniqIds alert.includeOnlyTaskIds).length = 0 := by
      simpa using hpred
    exact List.length_eq_zero.mp this
  · intro hempty
    refine List.mem_filter.mpr ⟨hmem, ?_⟩
    rw [htask]
    have : uniqIds alert.includeOnlyTaskIds = [] := hun.mpr hempty
    simp [this]

/-- C9 witness: an entry with no task id against an alert with a
non-empty (and a separate alert with an empty) include-only set. -/
theorem C9_no_taskId_filter_witness :
    entryNoTask.taskId = none
      ∧ (entryNoTask ∈ applyEntryFilters alertTwenty [entryNoTask]
          ↔ alertTwenty.includeOnlyTaskIds.getD [] = [])
      ∧ (entryNoTask ∈ applyEntryFilters
            { alertTwenty with includeOnlyTaskIds := some ["t9"] } [entryNoTask]
          ↔ ({ alertTwenty with includeOnlyTaskIds := some ["t9"] }
              : AlertConfig).includeOnlyTaskIds.getD [] = []) := by
  refine ⟨rfl, ?_, ?_⟩
  · exact C9_no_taskId_filter alertTwenty [entryNoTask] entryNoTask
      (by decide) rfl (by decide)
  · exact C9_no_taskId_filter _ [entryNoTask] entryNoTask
      (by decide) rfl (by decide)

theorem requestAux_halt_ok (env : Nat → AttemptOutcome) (fuel attempt : Nat)
    (waits : List Nat) (p : Nat) (h : env attempt = .ok p) :
    requestAux env (fuel + 1) attempt waits = ⟨.success p, waits, attempt⟩ := by
  simp [requestAux, h]

theorem requestAux_halt_401 (env : Nat → AttemptOutcome) (fuel attempt : Nat)
    (waits : List Nat) (m : Option String) (h : env attempt = .httpErr 401 m) :
    requestAux env (fuel + 1) attempt waits
      = ⟨.failure unauthorizedError, waits, attempt⟩ := by
  simp [requestAux, h]

theorem requestAux_halt_403 (env : Nat → AttemptOutcome) (fuel attempt : Nat)
    (waits : List Nat) (m : Option String) (h : env attempt = .httpErr 403 m) :
    requestAux env (fuel + 1) attempt waits
      = ⟨.failure forbiddenError, waits, attempt⟩ := by
  simp [requestAux, h]

theorem requestAux_step (env : Nat → AttemptOutcome) (fuel attempt : Nat)
    (waits : List Nat) (h : retriableOutcome (env attempt) = true)
    (ha : attempt < MAX_ATTEMPTS) :
    requestAux env (fuel + 1) attempt waits
      = requestAux env fuel (attempt + 1) (waits ++ [backoffMs attempt]) := by
  cases he : env attempt with
  | ok p => rw [he] at h; simp [retriableOutcome] at h
  | netErr => simp [requestAux, he, ha]
  | httpErr s m =>
    have hs : s = 429 ∨ 500 ≤ s := by
      rw [he] at h; simpa [retriableOutcome] using h
    have h401 : ¬ s = 401 := by rcases hs with h1 | h1 <;> omega
    have h403 : ¬ s = 403 := by rcases hs with h1 | h1 <;> omega
    simp [requestAux, he, h401, h403, hs, ha]

/-- After a prefix of `k - 1` retriable attempts, the `request` loop
stands at attempt `k` having slept exactly the backoffs of attempts
`1 .. k-1`. -/
theorem request_reaches (env : Nat → AttemptOutcome) (k : Nat)
    (hk1 : 1 ≤ k) (hk4 : k ≤ 4)
    (hpre : ∀ i, 1 ≤ i → i < k → retriableOutcome (env i) = true) :
    request env
      = requestAux env (5 - k) k ((List.range (k - 1)).map (fun i => backoffMs (i + 1))) := by
  interval_cases k
  · simp [request, MAX_ATTEMPTS]
  · have s1 := requestAux_step env 3 1 [] (hpre 1 (by omega) (by omega)) (by decide)
    rw [request, show (MAX_ATTEMPTS : Nat) = 3 + 1 from rfl, s1]
    congr 1
  · have s1 := requestAux_step env 3 1 [] (hpre 1 (by omega) (by omega)) (by decide)
    have s2 := requestAux_step env 2 2 ([] ++ [backoffMs 1])
      (hpre 2 (by omega) (by omega)) (by decide)
    rw [request, show (MAX_ATTEMPTS : Nat) = 3 + 1 from rfl, s1,
      show (3 : Nat) = 2 + 1 from rfl, s2]
    congr 1
  · have s1 := requestAux_step env 3 1 [] (hpre 1 (by omega) (by omega)) (by decide)
    have s2 := requestAux_step env 2 2 ([] ++ [backoffMs 1])
      (hpre 2 (by omega) (by omega)) (by decide)
    have s3 := requestAux_step env 1 3 ([] ++ [backoffMs 1] ++ [backoffMs 2])
      (hpre 3 (by omega) (by omega)) (by decide)
    rw [request, show (MAX_ATTEMPTS : Nat) = 3 + 1 from rfl, s1,
      show (3 : Nat) = 2 + 1 from rfl, s2, show (2 : Nat) = 1 + 1 from rfl, s3]
    congr 1

/-- C4: after any prefix of retriable attempts (HTTP 429/5xx or network
failure), each retried with a `250 * 2 ^ (attempt - 1)` ms backoff and
at most 4 attempts in all — so that the backoff schedule is exactly
250, 500, 1000 ms — a success at attempt `k` ends the call at once with
the payload, a 401 ends it at once with `UNAUTHORIZED`, and a 403 with
`FORBIDDEN`, in each case with exactly the `k - 1` backoffs of the
prefix and no further attempt. -/
theorem C4_request_retry (env : Nat → AttemptOutcome) (p : Nat)
    (m : Option String) (k : Nat) (hk1 : 1 ≤ k) (hk4 : k ≤ 4)
    (hpre : ∀ i, 1 ≤ i → i < k → retriableOutcome (env i) = true) :
    ((List.range 3).map (fun i => backoffMs (i + 1)) = [250, 500, 1000])
      ∧ (env k = .ok p →
          request env
            = ⟨.success p, (List.range (k - 1)).map (fun i => backoffMs (i + 1)), k⟩)
      ∧ (env k = .httpErr 401 m →
          request env
            = ⟨.failure unauthorizedError,
                (List.range (k - 1)).map (fun i => backoffMs (i + 1)), k⟩)
      ∧ (env k = .httpErr 403 m →
          request env
            = ⟨.failure forbiddenError,
                (List.range (k - 1)).map (fun i => backoffMs (i + 1)), k⟩) := by
  have hfuel : (5 - k : Nat) = (4 - k) + 1 := by omega
  have hreach := request_reaches env k hk1 hk4 hpre
  rw [hfuel] at hreach
  refine ⟨by decide, ?_, ?_, ?_⟩
  · intro h
    rw [hreach]
    exact requestAux_halt_ok env (4 - k) k _ p h
  · intro h
    rw [hreach]
    exact requestAux_halt_401 env (4 - k) k _ m h
  · intro h
    rw [hreach]
    exact requestAux_halt_403 env (4 - k) k _ m h

/-- C4 witness: 429 on attempts 1–3 and 200 on attempt 4 gives success
after exactly the three waits 250, 500, 1000 ms; and a success on
attempt 1 retries nothing. -/
theorem C4_request_retry_witness :
    (∀ i, 1 ≤ i → i < 4 → retriableOutcome (env429 i) = true)
      ∧ env429 4 = .ok 7
      ∧ request env429 = ⟨.success 7, [250, 500, 1000], 4⟩
      ∧ request (fun _ => .ok 3) = ⟨.success 3, [], 1⟩ := by
  have hpre : ∀ i, 1 ≤ i → i < 4 → retriableOutcome (env429 i) = true := by
    intro i h1 h2
    interval_cases i <;> decide
  have h := (C4_request_retry env429 7 none 4 (by omega) (by omega) hpre).2.1 rfl
  have h1 := (C4_request_retry (fun _ => .ok 3) 3 none 1 (by omega) (by omega)
    (by intro i hi1 hi2; omega)).2.1 rfl
  exact ⟨hpre, rfl, by simpa using h, by simpa using h1⟩

/-- The recursion of `requestAux`, entered with `attempt + fuel = 5`,
never produces the post-loop `Unexpected API error.`: every halting
branch carries either a success or a differently-shaped failure. -/
theorem requestAux_never_unexpected (env : Nat → AttemptOutcome) :
    ∀ fuel attempt waits, attempt + fuel = 5 → 1 ≤ fuel →
      (requestAux env fuel attempt waits).result
        ≠ ReqResult.failure unexpectedError := by
  intro fuel
  induction fuel with
  | zero => intro attempt waits h5 h1; omega
  | succ f ih =>
    intro attempt waits h5 _
    cases he : env attempt with
    | ok p => simp [requestAux, he]
    | netErr =>
      by_cases hlt : attempt < MAX_ATTEMPTS
      · cases f with
        | zero =>
          exfalso
          simp [MAX_ATTEMPTS] at hlt
          omega
        | succ f2 =>
          simp only [requestAux, he, if_pos hlt]
          exact ih (attempt + 1) _ (by omega) (by omega)
      · simp only [requestAux, he, if_neg hlt]
        decide
    | httpErr s m =>
      by_cases h401 : s = 401
      · simp only [requestAux, he, if_pos h401]
        decide
      · by_cases h403 : s = 403
        · simp only [requestAux, he, if_neg h401, if_pos h403]
          decide
        · by_cases hret : (s = 429 ∨ 500 ≤ s) ∧ attempt < MAX_ATTEMPTS
          · cases f with
            | zero =>
              exfalso
              have := hret.2
              simp [MAX_ATTEMPTS] at this
              omega
            | succ f2 =>
              simp only [requestAux, he, if_neg h401, if_neg h403, if_pos hret]
              exact ih (attempt + 1) _ (by omega) (by omega)
          · simp only [requestAux, he, if_neg h401, if_neg h403, if_neg hret]
            intro heq
            simp only [ReqResult.failure.injEq, ApiError.mk.injEq, unexpectedError] at heq
            exact Option.noConfusion heq.2.1

/-- C8 counterexample: four network failures exhaust all 4 attempts
without success, and the call fails with the generic network error, not
with the terminal `Unexpected API error.`. -/
theorem C8_counterexample :
    request envAllNet = ⟨.failure networkError, [250, 500, 1000], 4⟩
      ∧ networkError ≠ unexpectedError := by
  exact ⟨by decide, by decide⟩

/-- C8 (amended): when all 4 attempts complete without a successful
response, the call fails with the error classified from the final
attempt's failure (generic network error, the 401/403 classifications,
or the provider-derived message and status), after the full backoff
schedule; the post-loop terminal `Unexpected API error.` is never the
result of any `request` call. -/
theorem C8_exhausted_attempts (env env2 : Nat → AttemptOutcome)
    (hpre : ∀ i, 1 ≤ i → i < 4 → retriableOutcome (env i) = true)
    (h4 : ∀ p, env 4 ≠ .ok p) :
    request env = ⟨.failure (finalError (env 4)), [250, 500, 1000], 4⟩
      ∧ (request env2).result ≠ ReqResult.failure unexpectedError := by
  constructor
  · have hreach := request_reaches env 4 (by omega) (by omega) hpre
    have hw : (List.range 3).map (fun i => backoffMs (i + 1)) = [250, 500, 1000] := by
      decide
    rw [hw] at hreach
    rw [hreach, show (5 - 4 : Nat) = 0 + 1 from rfl]
    cases he : env 4 with
    | ok p => exact absurd he (h4 p)
    | netErr => simp [requestAux, he, finalError, MAX_ATTEMPTS]
    | httpErr s m =>
      by_cases h401 : s = 401
      · simp [requestAux, he, finalError, h401]
      · by_cases h403 : s = 403
        · simp [requestAux, he, finalError, h401, h403]
        · simp [requestAux, he, finalError, h401, h403, MAX_ATTEMPTS]
  · exact requestAux_never_unexpected env2 4 1 [] (by omega) (by omega)

/-- C8 witness: the amended behaviour at the all-network-failure
environment. -/
theorem C8_exhausted_attempts_witness :
    (∀ i, 1 ≤ i → i < 4 → retriableOutcome (envAllNet i) = true)
      ∧ (∀ p, envAllNet 4 ≠ .ok p)
      ∧ request envAllNet = ⟨.failure (finalError (envAllNet 4)), [250, 500, 1000], 4⟩
      ∧ (request envAllNet).result ≠ ReqResult.failure unexpectedError := by
  have hpre : ∀ i, 1 ≤ i → i < 4 → retriableOutcome (envAllNet i) = true := by
    intro i _ _; rfl
  have h4 : ∀ p, envAllNet 4 ≠ .ok p := by
    intro p h; exact AttemptOutcome.noConfusion h
  have h := C8_exhausted_attempts envAllNet envAllNet hpre h4
  exact ⟨hpre, h4, h.1, h.2⟩

/-- C3: the batch refresh handler always returns exactly one result per
input alert; and when batch setup fails before any per-alert refresh
(no token configured) on a non-empty input, every input alert is given
a synthetic error snapshot carrying the top-level failure message with
`success = false`, and that full error set is both persisted and
returned. -/
theorem C3_batch_total (token : Option String)
    (envFor : AlertConfig → RefreshEnv) (now : String)
    (alerts : List AlertConfig) :
    (refreshAllHandler token envFor now alerts).results.length = alerts.length
      ∧ (token = none → alerts ≠ [] →
          ((refreshAllHandler token envFor now alerts).persisted
              = some ((refreshAllHandler token envFor now alerts).results.map
                  (fun r => r.alert))
            ∧ (∀ i (hi : i < alerts.length)
                  (hi2 : i < (refreshAllHandler token envFor now alerts).results.length),
                (refreshAllHandler token envFor now alerts).results.get ⟨i, hi2⟩
                  = { alert :=
                        { alerts.get ⟨i, hi⟩ with
                          lastRefreshedAt := some now
                          updatedAt := now
                          lastSnapshot :=
                            some (buildErrorSnapshot (alerts.get ⟨i, hi⟩)
                              noTokenMessage now) }
                      success := false
                      errorMessage := some noTokenMessage })
            ∧ (∀ a : AlertConfig,
                (buildErrorSnapshot a noTokenMessage now).status = AlertStatus.error
                  ∧ (buildErrorSnapshot a noTokenMessage now).errorMessage
                      = some noTokenMessage))) := by
  constructor
  · by_cases hnil : alerts.length = 0
    · simp only [refreshAllHandler, if_pos hnil, List.length_nil]
      omega
    · cases token with
      | some t =>
        simp only [refreshAllHandler, if_neg hnil, List.length_map]
        simp [sortAlerts, List.length_mergeSort]
      | none =>
        simp only [refreshAllHandler, if_neg hnil, List.length_map]
  · intro htok hne
    subst htok
    have hnil : ¬ alerts.length = 0 := fun h => hne (List.length_eq_zero.mp h)
    refine ⟨?_, ?_, fun a => ⟨rfl, rfl⟩⟩
    · simp only [refreshAllHandler, if_neg hnil]
    · intro i hi hi2
      simp only [refreshAllHandler, if_neg hnil] at hi2 ⊢
      simp [hne, List.get_eq_getElem, List.getElem_map]

/-- C3 witness: the no-token batch over one alert. -/
theorem C3_batch_total_witness :
    (refreshAllHandler none (fun _ => envTrivial) "t" [alertTwenty]).results.length = 1
      ∧ (refreshAllHandler none (fun _ => envTrivial) "t" [alertTwenty]).persisted
          = some ((refreshAllHandler none (fun _ => envTrivial) "t"
              [alertTwenty]).results.map (fun r => r.alert))
      ∧ (buildErrorSnapshot alertTwenty noTokenMessage "t").status = AlertStatus.error
      ∧ (buildErrorSnapshot alertTwenty noTokenMessage "t").errorMessage
          = some noTokenMessage := by
  have h := C3_batch_total none (fun _ => envTrivial) "t" [alertTwenty]
  have h2 := h.2 rfl (by simp)
  exact ⟨h.1, h2.1, (h2.2.2 alertTwenty).1, (h2.2.2 alertTwenty).2⟩

/-- C5: evaluation of the code at the failing input.  `refreshSingleAlert`
as defined in refreshAlerts.ts has no fourth `teamMemberIds` parameter
(its callers in main.ts nevertheless pass one), and on an active,
scope-valid alert the `getTimeEntries` call it issues carries no
`assigneeIds` at all — the caller-injected team member ids can never
reach the assignee filter. -/
theorem C5_no_teamMemberIds_param :
    (refreshSingleAlert envRefresh alertTwenty none).2
        = some { teamId := "team1", startMs := none, endMs := none,
                 folderId := some "f1", listId := none, assigneeIds := none }
      ∧ ((refreshSingleAlert envRefresh alertTwenty none).2).map
          (fun p => p.assigneeIds) = some none
      ∧ (refreshSingleAlert envRefresh alertTwenty none).1.success = true := by
  exact ⟨rfl, rfl, rfl⟩

theorem scanAux_reqs_le (env : Nat → PageResponse) :
    ∀ fuel reqs page cursor st,
      (scanAux env fuel reqs page cursor st).2 ≤ reqs + fuel := by
  intro fuel
  induction fuel with
  | zero => intro reqs page cursor st; simp [scanAux]
  | succ f ih =>
    intro reqs page cursor st
    simp only [scanAux]
    cases hns : nextState (env reqs) page cursor with
    | none => simp [hns]
    | some pc =>
      simp only [hns]
      have := ih (reqs + 1) pc.1 pc.2 ((env reqs).entries.foldl ingestItem st)
      omega

/-- C7: every assignee-scoped scan issues at most 200 page requests
regardless of the provider's pagination signals; and a response with no
cursor whose numeric `next_page` does not strictly exceed the current
page stops the scan — exactly one more request than were already
made. -/
theorem C7_pagination_guard (env0 env : Nat → PageResponse)
    (st0 st : ScanState) (fuel reqs : Nat) (page : Int)
    (cursor : Option String) (np : Int)
    (h1 : (env reqs).next_cursor = none)
    (h2 : (env reqs).next_page = some np) (h3 : np ≤ page) :
    (runScan env0 st0).2 ≤ 200
      ∧ (scanAux env (fuel + 1) reqs page cursor st).2 = reqs + 1 := by
  constructor
  · simpa [runScan] using scanAux_reqs_le env0 200 0 0 none st0
  · have hns : nextState (env reqs) page cursor = none := by
      simp [nextState, h1, h2, if_pos h3]
    simp only [scanAux, hns]

/-- C7 witness: a provider stuck on `next_page = 0` answers once and the
scan stops; the 200-request cap at the same environment. -/
theorem C7_pagination_guard_witness :
    pageStuck.next_cursor = none ∧ pageStuck.next_page = some 0
      ∧ ((0 : Int) ≤ 0)
      ∧ (runScan (fun _ => pageStuck) ⟨[], [], []⟩).2 ≤ 200
      ∧ (scanAux (fun _ => pageStuck) 1 0 0 none ⟨[], [], []⟩).2 = 0 + 1 := by
  have h := C7_pagination_guard (fun _ => pageStuck) (fun _ => pageStuck)
    ⟨[], [], []⟩ ⟨[], [], []⟩ 0 0 0 none 0 rfl rfl (by omega)
  exact ⟨rfl, rfl, by omega, h.1, h.2⟩

theorem goodState_empty : GoodState ⟨[], [], []⟩ := by
  refine ⟨by simp, by simp, by simp, by simp⟩

theorem goodState_ingest (st : ScanState) (r : RawEntry) (h : GoodState st) :
    GoodState (ingest st r) := by
  obtain ⟨hnd, hiff, hproc, hshape⟩ := h
  by_cases hid : entryId r ∈ st.seen
  · have heq : ingest st r = { st with processed := st.processed ++ [r] } := by
      simp [ingest, hid]
    rw [heq]
    refine ⟨hnd, hiff, ?_, hshape⟩
    intro r2 hr2
    rcases List.mem_append.mp hr2 with h1 | h1
    · exact hproc r2 h1
    · simp only [List.mem_singleton] at h1
      subst h1
      exact hid
  · have heq : ingest st r
        = { entries := st.entries ++ [mkEntry (entryId r) r]
            seen := st.seen ++ [entryId r]
            processed := st.processed ++ [r] } := by
      simp [ingest, hid]
    rw [heq]
    have hnotin : entryId r ∉ st.entries.map (fun e => e.id) := by
      intro hmem
      rcases List.mem_map.mp hmem with ⟨e, he, heq2⟩
      exact hid ((hiff (entryId r)).mpr ⟨e, he, heq2⟩)
    refine ⟨?_, ?_, ?_, ?_⟩
    · rw [List.map_append]
      rw [List.nodup_append]
      refine ⟨hnd, by simp, ?_⟩
      intro a ha hb
      simp only [List.map_cons, List.map_nil, List.mem_singleton, mkEntry] at hb
      subst hb
      exact hnotin ha
    · intro s
      constructor
      · intro hs
        rcases List.mem_append.mp hs with h1 | h1
        · rcases (hiff s).mp h1 with ⟨e, he, hee⟩
          exact ⟨e, List.mem_append.mpr (Or.inl he), hee⟩
        · simp only [List.mem_singleton] at h1
          subst h1
          exact ⟨mkEntry (entryId r) r, List.mem_append.mpr (Or.inr (by simp)), rfl⟩
      · rintro ⟨e, he, hee⟩
        rcases List.mem_append.mp he with h1 | h1
        · exact List.mem_append.mpr (Or.inl ((hiff s).mpr ⟨e, h1, hee⟩))
        · simp only [List.mem_singleton] at h1
          subst h1
          refine List.mem_append.mpr (Or.inr ?_)
          rw [← hee]
          simp [mkEntry]
    · intro r2 hr2
      rcases List.mem_append.mp hr2 with h1 | h1
      · exact List.mem_append.mpr (Or.inl (hproc r2 h1))
      · simp only [List.mem_singleton] at h1
        subst h1
        exact List.mem_append.mpr (Or.inr (by simp))
    · intro e he
      rcases List.mem_append.mp he with h1 | h1
      · exact hshape e h1
      · simp only [List.mem_singleton] at h1
        subst h1
        rfl

theorem goodState_ingestItem (st : ScanState) (o : Option RawEntry)
    (h : GoodState st) : GoodState (ingestItem st o) := by
  cases o with
  | none => exact h
  | some r => exact goodState_ingest st r h

theorem goodState_foldl_items (l : List (Option RawEntry)) :
    ∀ st, GoodState st → GoodState (l.foldl ingestItem st) := by
  induction l with
  | nil => intro st h; exact h
  | cons x xs ih => intro st h; exact ih _ (goodState_ingestItem st x h)

theorem goodState_scanAux (env : Nat → PageResponse) :
    ∀ fuel reqs page cursor st, GoodState st →
      GoodState (scanAux env fuel reqs page cursor st).1 := by
  intro fuel
  induction fuel with
  | zero => intro reqs page cursor st h; simpa [scanAux] using h
  | succ f ih =>
    intro reqs page cursor st h
    simp only [scanAux]
    cases hns : nextState (env reqs) page cursor with
    | none => simp only [hns]; exact goodState_foldl_items _ st h
    | some pc =>
      simp only [hns]
      exact ih (reqs + 1) pc.1 pc.2 _ (goodState_foldl_items _ st h)

theorem goodState_getTimeEntriesState (env : Option String → Nat → PageResponse)
    (aids : Option (List String)) : GoodState (getTimeEntriesState env aids) := by
  rw [getTimeEntriesState]
  have hfold : ∀ (l : List String) (st : ScanState), GoodState st →
      GoodState (l.foldl (fun st qv => (runScan (env (assigneeValue qv)) st).1) st) := by
    intro l
    induction l with
    | nil => intro st h; exact h
    | cons x xs ih =>
      intro st h
      exact ih _ (goodState_scanAux (env (assigneeValue x)) 200 0 0 none st h)
  exact hfold _ _ goodState_empty

/-- C1: with a set of distinct, normalized assignee ids, the passes
issued are exactly one per assignee id, plus the unassigned pass
(`assignee = 0`), plus the unfiltered pass — and only the unfiltered
pass when no filter is supplied; across all passes, the merged result
carries pairwise-distinct identities, each entry's identity is its
provider id when present and else the derived fallback key, and every
raw item processed in any pass (in particular one returned by two
passes) corresponds to exactly one entry of the result. -/
theorem C1_passes_and_dedup (ids : List String) (hnodup : ids.Nodup)
    (hids : ∀ s ∈ ids, jsTrim s = s ∧ 0 < s.length)
    (hs1 : ASSIGNEE_QUERY_UNASSIGNED ∉ ids)
    (hs2 : ASSIGNEE_QUERY_NONE ∉ ids) (hne : ids ≠ []) :
    assigneePasses (some ids) = ids.map some ++ [some "0", none]
      ∧ assigneePasses none = [none]
      ∧ (∀ (env : Option String → Nat → PageResponse) (aids : Option (List String)),
          ((getTimeEntries env aids).map (fun e => e.id)).Nodup)
      ∧ (∀ (env : Option String → Nat → PageResponse) (aids : Option (List String))
            (e : TimeEntry), e ∈ getTimeEntries env aids → e.id = entryId e.raw)
      ∧ (∀ (env : Option String → Nat → PageResponse) (aids : Option (List String))
            (r : RawEntry), r ∈ (getTimeEntriesState env aids).processed →
          ∃! e, e ∈ getTimeEntries env aids ∧ e.id = entryId r) := by
  refine ⟨?_, by decide, ?_, ?_, ?_⟩
  · have hmap : ids.map (fun id => jsTrim id) = ids := by
      have := List.map_congr_left (l := ids)
        (f := fun id : String => jsTrim id) (g := fun id => id)
        (fun s hs => (hids s hs).1)
      simpa using this
    have hflt : ids.filter (fun id => id.length > 0) = ids :=
      List.filter_eq_self.mpr (fun s hs => by simpa using (hids s hs).2)
    have hlen : ¬ (ids.length = 0) := fun h => hne (List.length_eq_zero.mp h)
    have hqv : buildAssigneeQueryValues (some ids)
        = ids ++ [ASSIGNEE_QUERY_UNASSIGNED, ASSIGNEE_QUERY_NONE] := by
      simp only [buildAssigneeQueryValues, Option.getD_some, hmap, hflt,
        uniq_eq_self ids hnodup, if_neg hlen]
    have hvals : ids.map assigneeValue = ids.map some :=
      List.map_congr_left (fun s hs => by
        have hu : ¬ s = ASSIGNEE_QUERY_UNASSIGNED := fun h => hs1 (h ▸ hs)
        have hn : ¬ s = ASSIGNEE_QUERY_NONE := fun h => hs2 (h ▸ hs)
        simp [assigneeValue, hu, hn])
    rw [assigneePasses, hqv, List.map_append, hvals]
    congr 1
  · intro env aids
    exact (goodState_getTimeEntriesState env aids).1
  · intro env aids e he
    have hsh := (goodState_getTimeEntriesState env aids).2.2.2 e he
    calc e.id = (mkEntry (entryId e.raw) e.raw).id := by rw [← hsh]
      _ = entryId e.raw := rfl
  · intro env aids r hr
    obtain ⟨hnd2, hiff2, hproc2, hshape2⟩ := goodState_getTimeEntriesState env aids
    obtain ⟨e, he, hee⟩ := (hiff2 (entryId r)).mp (hproc2 r hr)
    refine ⟨e, ⟨he, hee⟩, ?_⟩
    rintro e2 ⟨he2, hee2⟩
    exact List.inj_on_of_nodup_map hnd2 he2 he (by rw [hee2, hee])

/-- C1 witness: one assignee id, a provider that answers every request
of every pass with the same id-less raw entry; three passes are issued
and the entry survives exactly once. -/
theorem C1_passes_and_dedup_witness :
    (["u1"] : List String).Nodup
      ∧ (∀ s ∈ (["u1"] : List String), jsTrim s = s ∧ 0 < s.length)
      ∧ ASSIGNEE_QUERY_UNASSIGNED ∉ (["u1"] : List String)
      ∧ ASSIGNEE_QUERY_NONE ∉ (["u1"] : List String)
      ∧ assigneePasses (some ["u1"]) = [some "u1", some "0", none]
      ∧ rawNeg ∈ (getTimeEntriesState envPages (some ["u1"])).processed
      ∧ (∃! e, e ∈ getTimeEntries envPages (some ["u1"]) ∧ e.id = entryId rawNeg) := by
  have hids : ∀ s ∈ (["u1"] : List String), jsTrim s = s ∧ 0 < s.length := by
    intro s hs
    simp only [List.mem_singleton] at hs
    subst hs
    exact ⟨by decide, by decide⟩
  have hmem : rawNeg ∈ (getTimeEntriesState envPages (some ["u1"])).processed := by
    decide
  have h := C1_passes_and_dedup ["u1"] (by decide) hids (by decide) (by decide)
    (by decide)
  exact ⟨by decide, hids, by decide, by decide, by simpa using h.1, hmem,
    h.2.2.2.2 envPages (some ["u1"]) rawNeg hmem⟩

/-- C10: `parseDurationMs` maps a finite numeric (or numeric-string)
duration `d` to its absolute value and a missing or unparsable duration
to 0, so every entry produced by `getTimeEntries` has a non-negative
`durationMs`. -/
theorem C10_parseDuration_abs (d : Int)
    (env : Option String → Nat → PageResponse) (aids : Option (List String))
    (e : TimeEntry) (he : e ∈ getTimeEntries env aids) :
    parseDurationMs (JsNumVal.num d) = |d|
      ∧ parseDurationMs (JsNumVal.strNum d) = |d|
      ∧ parseDurationMs JsNumVal.bad = 0
      ∧ 0 ≤ e.durationMs := by
  refine ⟨by rw [Int.abs_eq_natAbs]; rfl, by rw [Int.abs_eq_natAbs]; rfl, rfl, ?_⟩
  have hsh := (goodState_getTimeEntriesState env aids).2.2.2 e he
  have hdur : e.durationMs = parseDurationMs e.raw.duration := by
    calc e.durationMs = (mkEntry (entryId e.raw) e.raw).durationMs := by rw [← hsh]
      _ = parseDurationMs e.raw.duration := rfl
  rw [hdur]
  cases e.raw.duration with
  | num n => simp only [parseDurationMs]; exact Int.natCast_nonneg _
  | strNum n => simp only [parseDurationMs]; exact Int.natCast_nonneg _
  | bad => simp [parseDurationMs]

/-- C10 witness: a raw entry with duration −1000 produces a
`durationMs` of +1000 (its magnitude, not a clamp to zero). -/
theorem C10_parseDuration_abs_witness :
    mkEntry (entryId rawNeg) rawNeg ∈ getTimeEntries envPages (some ["u1"])
      ∧ rawNeg.duration = JsNumVal.num (-1000)
      ∧ 0 ≤ (mkEntry (entryId rawNeg) rawNeg).durationMs
      ∧ (mkEntry (entryId rawNeg) rawNeg).durationMs = 1000 := by
  have hmem : mkEntry (entryId rawNeg) rawNeg ∈ getTimeEntries envPages (some ["u1"]) := by
    decide
  have h := C10_parseDuration_abs (-1000) envPages (some ["u1"]) _ hmem
  exact ⟨hmem, rfl, h.2.2.2, by decide⟩

end ClickUp
